import Mathlib

/-!
Shallow embedding of `django_core_tasks/backends/base.py`
(`BaseTaskBackend` and the pieces of its environment it relies on).

Python exceptions are modelled with `Except`; the state-passing of a
Python method is made explicit where a claim is about state (the
backend and the task are threaded through `validate_task` so that its
freedom from side effects is a provable statement rather than a
convention of the embedding).
-/

namespace DjangoCoreTasks

/-- Modelled from the spec: the code calls `is_global_function` from
`django_core_tasks.utils`, which is not part of the given sources.  The
spec describes the check as "the task's function is not resolvable as a
global (module-level) symbol" — a capability test on the function
object, modelled here as a flag carried by the function reference. -/
structure PyFunction where
  name : String
  globally_resolvable : Bool
deriving DecidableEq

/-- Modelled from the spec: `is_global_function` answers whether the
function is resolvable as a global (module-level) symbol. -/
def is_global_function (f : PyFunction) : Bool :=
  f.globally_resolvable

/-- Modelled from the spec: a datetime value; the only property of it
this file consults is timezone awareness (`django.utils.timezone.is_aware`,
not part of the given sources).  A stamp field keeps distinct datetimes
distinct. -/
structure PyDateTime where
  stamp : Int
  tz_aware : Bool
deriving DecidableEq

/-- Modelled from the spec: `timezone.is_aware` tests whether a datetime
carries timezone information. -/
def is_aware (d : PyDateTime) : Bool :=
  d.tz_aware

/-- Modelled from the spec: a Task describes a unit of deferred work — a
reference to a globally resolvable function, optional priority (integer),
optional "run after" timestamp.  (`django_core_tasks.task.Task` is not
part of the given sources.) -/
structure Task where
  func : PyFunction
  priority : Option Int
  run_after : Option PyDateTime
deriving DecidableEq

/-- Modelled from the spec: a TaskResult is a handle identified by an
opaque result id (`django_core_tasks.task.TaskResult` is not part of the
given sources). -/
structure TaskResult where
  result_id : String
deriving DecidableEq

/-- The exception classes the embedded code can raise:
`InvalidTaskError` (from `django_core_tasks.exceptions`),
`NotImplementedError` with an optional message, and Python's `KeyError`
raised by a failing dict lookup. -/
inductive PyError where
  | invalidTask (message : String)
  | notImplemented (message : Option String)
  | keyError (key : String)
deriving DecidableEq

/-- The state of a `BaseTaskBackend` instance: the `alias` attribute set
by `__init__` and the `supports_defer` class attribute (default
`False`). -/
structure BaseTaskBackend where
  «alias» : String
  supports_defer : Bool := false
deriving DecidableEq

/-- The priority check of `validate_task` as a predicate on the optional
priority: Python's `task.priority is not None and task.priority < 1`. -/
def priorityInvalid : Option Int → Bool
  | some p => decide (p < 1)
  | none => false

/-- The awareness check of `validate_task` as a predicate on the optional
run-after datetime: Python's
`task.run_after is not None and not timezone.is_aware(task.run_after)`. -/
def naiveRunAfter : Option PyDateTime → Bool
  | some d => ! is_aware d
  | none => false

namespace BaseTaskBackend

/-- `BaseTaskBackend.__init__`: `self.alias = options["ALIAS"]`.  The
options dict is modelled as an association list; a missing key raises
`KeyError`. -/
def init (options : List (String × String)) : Except PyError BaseTaskBackend :=
  match options.lookup "ALIAS" with
  | some v => Except.ok { «alias» := v }
  | none => Except.error (PyError.keyError "ALIAS")

/-- `BaseTaskBackend.validate_task`.  The method reads `self` and `task`
and either raises `InvalidTaskError` or returns `None`; the (unchanged)
backend and task are returned alongside the outcome so that absence of
side effects is explicit in the embedding. -/
def validate_task (self : BaseTaskBackend) (task : Task) :
    Except PyError Unit × BaseTaskBackend × Task :=
  if ! is_global_function task.func then
    (Except.error
      (PyError.invalidTask "Task function must be a globally importable function"),
      self, task)
  else if priorityInvalid task.priority then
    (Except.error (PyError.invalidTask "priority must be positive"), self, task)
  else if ! self.supports_defer && task.run_after.isSome then
    (Except.error (PyError.invalidTask "Backend does not support run_after"),
      self, task)
  else if naiveRunAfter task.run_after then
    (Except.error (PyError.invalidTask "run_after must be an aware datetime"),
      self, task)
  else
    (Except.ok (), self, task)

/-- `BaseTaskBackend.enqueue`: `raise NotImplementedError()`. -/
def enqueue (self : BaseTaskBackend) (task : Task) (args : α) (kwargs : β) :
    Except PyError TaskResult :=
  Except.error (PyError.notImplemented none)

/-- Modelled from the spec: `asgiref.sync.sync_to_async` (not part of the
given sources) runs the wrapped synchronous callable on a thread-affined
worker thread and hands back its return value, surfacing an exception as
the resolved failure of the awaitable.  Thread scheduling itself is not
observable at this layer, so the bridge preserves the callable's
outcome. -/
def sync_to_async (f : γ → Except PyError δ) (thread_sensitive : Bool) :
    γ → Except PyError δ :=
  fun x => f x

/-- `BaseTaskBackend.aenqueue`: awaits
`sync_to_async(self.enqueue, thread_sensitive=True)(task=task, args=args, kwargs=kwargs)`. -/
def aenqueue (self : BaseTaskBackend) (task : Task) (args : α) (kwargs : β) :
    Except PyError TaskResult :=
  sync_to_async (fun x : Task × α × β => self.enqueue x.1 x.2.1 x.2.2) true
    (task, args, kwargs)

/-- `BaseTaskBackend.get_result`:
`raise NotImplementedError("This backend does not support retrieving results.")`. -/
def get_result (self : BaseTaskBackend) (result_id : String) :
    Except PyError TaskResult :=
  Except.error
    (PyError.notImplemented (some "This backend does not support retrieving results."))

/-- `BaseTaskBackend.aget_result`: awaits
`sync_to_async(self.get_result, thread_sensitive=True)(result_id=result_id)`. -/
def aget_result (self : BaseTaskBackend) (result_id : String) :
    Except PyError TaskResult :=
  sync_to_async (fun r : String => self.get_result r) true result_id

/-- `BaseTaskBackend.close`: the body is `...`, a no-op returning `None`;
the backend state is returned unchanged. -/
def close (self : BaseTaskBackend) : Unit × BaseTaskBackend :=
  ((), self)

end BaseTaskBackend

/-- The four checks of `validate_task`, in the order the source applies
them, each paired with the message of the `InvalidTaskError` it raises. -/
def ruleViolations (self : BaseTaskBackend) (task : Task) : List (Bool × String) :=
  [(! is_global_function task.func,
      "Task function must be a globally importable function"),
   (priorityInvalid task.priority, "priority must be positive"),
   (! self.supports_defer && task.run_after.isSome,
      "Backend does not support run_after"),
   (naiveRunAfter task.run_after, "run_after must be an aware datetime")]

/-- The message of the first violated rule in a check list, if any. -/
def firstViolation : List (Bool × String) → Option String
  | [] => none
  | (b, m) :: rest => if b then some m else firstViolation rest

/-- C1: for every task whose function is not resolvable as a global
(module-level) function, `validate_task` raises `InvalidTaskError`, for
every backend configuration. -/
theorem validate_task_rejects_unresolvable_function
    (s : BaseTaskBackend) (t : Task)
    (h : is_global_function t.func = false) :
    (BaseTaskBackend.validate_task s t).1 =
      Except.error
        (PyError.invalidTask "Task function must be a globally importable function") := by
  simp [BaseTaskBackend.validate_task, h]

/-- Witness for C1 at a concrete backend and task. -/
theorem validate_task_rejects_unresolvable_function_witness :
    (BaseTaskBackend.validate_task ⟨"default", false⟩
        ⟨⟨"f", false⟩, none, none⟩).1 =
      Except.error
        (PyError.invalidTask "Task function must be a globally importable function") :=
  validate_task_rejects_unresolvable_function _ _ rfl

/-- C2: for a task with a globally resolvable function, `validate_task`
raises the priority `InvalidTaskError` exactly when a priority is present
and less than 1; a priority of 1 or greater, or an absent priority, never
triggers the priority error. -/
theorem validate_task_priority_check (s : BaseTaskBackend) (t : Task)
    (hf : is_global_function t.func = true) :
    (∀ p : Int, t.priority = some p → p < 1 →
      (BaseTaskBackend.validate_task s t).1 =
        Except.error (PyError.invalidTask "priority must be positive"))
    ∧ ((t.priority = none ∨ ∃ p : Int, t.priority = some p ∧ 1 ≤ p) →
      (BaseTaskBackend.validate_task s t).1 ≠
        Except.error (PyError.invalidTask "priority must be positive")) := by
  constructor
  · intro p hp hlt
    simp [BaseTaskBackend.validate_task, priorityInvalid, hf, hp, hlt]
  · intro hok
    have hguard : priorityInvalid t.priority = false := by
      rcases hok with h | ⟨p, hp, hge⟩
      · simp [priorityInvalid, h]
      · simp [priorityInvalid, hp]
        omega
    cases h3 : (! s.supports_defer && t.run_after.isSome) <;>
      cases h4 : naiveRunAfter t.run_after <;>
        simp [BaseTaskBackend.validate_task, hf, hguard, h3, h4]

/-- Witness for C2: priority 0 is rejected and priority 1 is not. -/
theorem validate_task_priority_check_witness :
    (BaseTaskBackend.validate_task ⟨"default", false⟩
        ⟨⟨"f", true⟩, some 0, none⟩).1 =
      Except.error (PyError.invalidTask "priority must be positive")
    ∧ (BaseTaskBackend.validate_task ⟨"default", false⟩
        ⟨⟨"f", true⟩, some 1, none⟩).1 ≠
      Except.error (PyError.invalidTask "priority must be positive") :=
  ⟨(validate_task_priority_check ⟨"default", false⟩ ⟨⟨"f", true⟩, some 0, none⟩
      rfl).1 0 rfl (by decide),
   (validate_task_priority_check ⟨"default", false⟩ ⟨⟨"f", true⟩, some 1, none⟩
      rfl).2 (Or.inr ⟨1, rfl, by decide⟩)⟩

/-- C3: a task with a resolvable function and valid priority whose
`run_after` is present but not timezone-aware fails `validate_task` with
an `InvalidTaskError`, whatever the backend's `supports_defer` flag. -/
theorem validate_task_rejects_naive_run_after (s : BaseTaskBackend) (t : Task)
    (hf : is_global_function t.func = true)
    (hp : priorityInvalid t.priority = false)
    (d : PyDateTime) (hr : t.run_after = some d) (hn : is_aware d = false) :
    ∃ msg, (BaseTaskBackend.validate_task s t).1 =
      Except.error (PyError.invalidTask msg) := by
  cases hd : s.supports_defer
  · exact ⟨"Backend does not support run_after",
      by simp [BaseTaskBackend.validate_task, hf, hp, hd, hr]⟩
  · exact ⟨"run_after must be an aware datetime",
      by simp [BaseTaskBackend.validate_task, naiveRunAfter, is_aware, hf, hp, hd, hr,
        show d.tz_aware = false from hn]⟩

/-- Witness for C3 at a concrete backend and task with a naive
`run_after`. -/
theorem validate_task_rejects_naive_run_after_witness :
    ∃ msg, (BaseTaskBackend.validate_task ⟨"default", false⟩
        ⟨⟨"f", true⟩, none, some ⟨0, false⟩⟩).1 =
      Except.error (PyError.invalidTask msg) :=
  validate_task_rejects_naive_run_after ⟨"default", false⟩
    ⟨⟨"f", true⟩, none, some ⟨0, false⟩⟩ rfl rfl ⟨0, false⟩ rfl rfl

/-- C4: a backend with `supports_defer = false` (the base-class default)
fails `validate_task` with an `InvalidTaskError` on every task whose
`run_after` is non-null, timezone-aware or not. -/
theorem validate_task_defer_unsupported (s : BaseTaskBackend) (t : Task)
    (hd : s.supports_defer = false)
    (d : PyDateTime) (hr : t.run_after = some d) :
    ∃ msg, (BaseTaskBackend.validate_task s t).1 =
      Except.error (PyError.invalidTask msg) := by
  cases hg : is_global_function t.func
  · exact ⟨"Task function must be a globally importable function",
      by simp [BaseTaskBackend.validate_task, hg]⟩
  · cases hp : priorityInvalid t.priority
    · exact ⟨"Backend does not support run_after",
        by simp [BaseTaskBackend.validate_task, hg, hp, hd, hr]⟩
    · exact ⟨"priority must be positive",
        by simp [BaseTaskBackend.validate_task, hg, hp]⟩

/-- Witness for C4: an aware `run_after` on a non-deferring backend is
still rejected. -/
theorem validate_task_defer_unsupported_witness :
    ∃ msg, (BaseTaskBackend.validate_task ⟨"default", false⟩
        ⟨⟨"f", true⟩, none, some ⟨0, true⟩⟩).1 =
      Except.error (PyError.invalidTask msg) :=
  validate_task_defer_unsupported ⟨"default", false⟩
    ⟨⟨"f", true⟩, none, some ⟨0, true⟩⟩ rfl ⟨0, true⟩ rfl

/-- C5: `enqueue` and `get_result` on the base class raise
`NotImplementedError` on every input and never return a `TaskResult`. -/
theorem base_enqueue_get_result_raise {α β : Type}
    (s : BaseTaskBackend) (t : Task) (args : α) (kwargs : β) (rid : String) :
    s.enqueue t args kwargs = Except.error (PyError.notImplemented none)
    ∧ s.get_result rid =
        Except.error (PyError.notImplemented
          (some "This backend does not support retrieving results."))
    ∧ (∀ r : TaskResult, s.enqueue t args kwargs ≠ Except.ok r)
    ∧ (∀ r : TaskResult, s.get_result rid ≠ Except.ok r) := by
  refine ⟨rfl, rfl, ?_, ?_⟩ <;> intro r <;>
    simp [BaseTaskBackend.enqueue, BaseTaskBackend.get_result]

/-- C6: for a task passing validation, `aenqueue` (through the
`sync_to_async` bridge) produces exactly the outcome `enqueue` produces
on the same backend state, results and raised errors alike. -/
theorem aenqueue_matches_enqueue {α β : Type}
    (s : BaseTaskBackend) (t : Task) (args : α) (kwargs : β)
    (hvalid : (BaseTaskBackend.validate_task s t).1 = Except.ok ()) :
    s.aenqueue t args kwargs = s.enqueue t args kwargs :=
  rfl

/-- Witness for C6 at a concrete valid task. -/
theorem aenqueue_matches_enqueue_witness :
    (BaseTaskBackend.validate_task ⟨"default", false⟩
        ⟨⟨"f", true⟩, none, none⟩).1 = Except.ok ()
    ∧ BaseTaskBackend.aenqueue ⟨"default", false⟩ ⟨⟨"f", true⟩, none, none⟩
        (0 : Nat) "kw" =
      BaseTaskBackend.enqueue ⟨"default", false⟩ ⟨⟨"f", true⟩, none, none⟩
        (0 : Nat) "kw" :=
  ⟨rfl, aenqueue_matches_enqueue ⟨"default", false⟩ ⟨⟨"f", true⟩, none, none⟩
    (0 : Nat) "kw" rfl⟩

/-- C7: `aget_result` (through the `sync_to_async` bridge) produces
exactly the outcome `get_result` produces on the same backend state, for
every result id. -/
theorem aget_result_matches_get_result (s : BaseTaskBackend) (rid : String) :
    s.aget_result rid = s.get_result rid :=
  rfl

/-- C8: construction with an options mapping holding key "ALIAS" succeeds
and stores that key's value as the alias attribute; construction from a
mapping without "ALIAS" raises `KeyError`. -/
theorem init_requires_alias_key :
    (∀ (opts : List (String × String)) (v : String),
      opts.lookup "ALIAS" = some v →
      BaseTaskBackend.init opts = Except.ok ⟨v, false⟩)
    ∧ (∀ opts : List (String × String),
      opts.lookup "ALIAS" = none →
      BaseTaskBackend.init opts = Except.error (PyError.keyError "ALIAS")) := by
  constructor
  · intro opts v h
    simp [BaseTaskBackend.init, h]
  · intro opts h
    simp [BaseTaskBackend.init, h]

/-- Witness for C8: `{"ALIAS": "default"}` yields alias `"default"`; the
empty mapping raises `KeyError`. -/
theorem init_requires_alias_key_witness :
    BaseTaskBackend.init [("ALIAS", "default")] = Except.ok ⟨"default", false⟩
    ∧ BaseTaskBackend.init [] = Except.error (PyError.keyError "ALIAS") :=
  ⟨init_requires_alias_key.1 [("ALIAS", "default")] "default" rfl,
   init_requires_alias_key.2 [] rfl⟩

/-- C9: `validate_task` has no side effects: on every backend state and
task, erroring or not, the backend and the task come back unchanged. -/
theorem validate_task_no_side_effects (s : BaseTaskBackend) (t : Task) :
    (BaseTaskBackend.validate_task s t).2 = (s, t) := by
  unfold BaseTaskBackend.validate_task
  split
  · rfl
  · split
    · rfl
    · split
      · rfl
      · split <;> rfl

/-- C10: `validate_task` applies its four checks in the source order —
function resolvability, priority, defer capability, timezone awareness —
raising the error of the first violated rule; in particular a naive
`run_after` on a `supports_defer = false` backend raises the
"Backend does not support run_after" error, and the
"run_after must be an aware datetime" error only arises when
`supports_defer = true`. -/
theorem validate_task_check_order (s : BaseTaskBackend) (t : Task) :
    ((BaseTaskBackend.validate_task s t).1 =
      (match firstViolation (ruleViolations s t) with
       | some m => Except.error (PyError.invalidTask m)
       | none => Except.ok ()))
    ∧ (s.supports_defer = false →
        ∀ d : PyDateTime, t.run_after = some d → is_aware d = false →
        is_global_function t.func = true → priorityInvalid t.priority = false →
        (BaseTaskBackend.validate_task s t).1 =
          Except.error (PyError.invalidTask "Backend does not support run_after"))
    ∧ ((BaseTaskBackend.validate_task s t).1 =
          Except.error (PyError.invalidTask "run_after must be an aware datetime") →
        s.supports_defer = true) := by
  refine ⟨?_, ?_, ?_⟩
  · cases h1 : is_global_function t.func <;>
      cases h2 : priorityInvalid t.priority <;>
        cases h3 : (! s.supports_defer && t.run_after.isSome) <;>
          cases h4 : naiveRunAfter t.run_after <;>
            simp [BaseTaskBackend.validate_task, firstViolation, ruleViolations,
              h1, h2, h3, h4]
  · intro hd d hr hn hg hp
    simp [BaseTaskBackend.validate_task, hg, hp, hd, hr]
  · intro h
    by_contra hne
    rw [Bool.not_eq_true] at hne
    cases h1 : is_global_function t.func <;>
      cases h2 : priorityInvalid t.priority <;>
        cases hr : t.run_after <;>
          simp [BaseTaskBackend.validate_task, naiveRunAfter,
            h1, h2, hne, hr] at h

/-- Witness for C10: a naive `run_after` on a non-deferring backend draws
the defer error, not the awareness error. -/
theorem validate_task_check_order_witness :
    (BaseTaskBackend.validate_task ⟨"default", false⟩
        ⟨⟨"f", true⟩, none, some ⟨0, false⟩⟩).1 =
      Except.error (PyError.invalidTask "Backend does not support run_after") :=
  (validate_task_check_order ⟨"default", false⟩
      ⟨⟨"f", true⟩, none, some ⟨0, false⟩⟩).2.1 rfl ⟨0, false⟩ rfl rfl rfl rfl

end DjangoCoreTasks
